import Mathlib

/-!
# Verification of `ms-teams-push` (`src/main.py`)

A shallow embedding of the notification relay in `src/main.py`:

* `_generate_adaptive_card` — the pure card builder, producing a JSON-like
  document (`JValue`) from one intervention record;
* `get_interventions` — the fetcher, modelled as a function of the HTTP
  outcome of its single POST request;
* `send_teams_message` — the webhook sender, likewise a function of the
  HTTP outcome of its POST;
* `main_run` — the `__main__` block, a function of the environment and of
  the two network outcomes.

Python dictionaries with optional keys become structures with `Option`
fields; `dict.get(k, d)` becomes `Option.getD`.  Network effects are made
explicit: each I/O function takes the outcome of its request (a response
with status code and body, or a raised network-level exception) as an
argument.  An uncaught Python exception is an `Except.error`; a normal
completion is `Except.ok`.  Log lines produced along each path are
collected in lists of strings.
-/

set_option autoImplicit false

namespace TeamsPush

/-- A primitive Python value, as far as truthiness is concerned.  The
`is_in_force` field of a record can hold any JSON scalar; only its
truthiness is consumed by the card builder. -/
inductive PyPrim where
  | int : Int → PyPrim
  | str : String → PyPrim
  | bool : Bool → PyPrim
  | none : PyPrim
deriving Repr, DecidableEq

/-- Python truthiness of a primitive value (`bool(v)`). -/
def PyPrim.truthy : PyPrim → Bool
  | .int n => decide (n ≠ 0)
  | .str s => decide (s ≠ "")
  | .bool b => b
  | .none => false

/-- One entry of `implementing_jurisdictions` / `affected_jurisdictions`:
a dictionary whose `name` key may be absent (`i.get('name', 'N/A')`). -/
structure Jurisdiction where
  name : Option String
deriving Repr, DecidableEq

/-- An intervention record as consumed by `_generate_adaptive_card`.
Every key may be absent, hence every field is an `Option`; the builder
reads each with `data.get(key, default)`. -/
structure InterventionRecord where
  state_act_title : Option String
  intervention_url : Option String
  gta_evaluation : Option String
  affected_jurisdictions : Option (List Jurisdiction)
  implementing_jurisdictions : Option (List Jurisdiction)
  intervention_type : Option String
  mast_chapter : Option String
  date_implemented : Option String
  is_in_force : Option PyPrim
  implementation_level : Option String
  affected_products : Option (List PyPrim)
  affected_sectors : Option (List PyPrim)
deriving Repr

/-- The record with every key absent (`{}` in Python). -/
def emptyRecord : InterventionRecord :=
  ⟨Option.none, Option.none, Option.none, Option.none, Option.none, Option.none,
   Option.none, Option.none, Option.none, Option.none, Option.none, Option.none⟩

/-- A JSON-like document value: the shape of the Adaptive Card payload the
builder constructs (string and boolean leaves, arrays, objects). -/
inductive JValue where
  | str : String → JValue
  | bool : Bool → JValue
  | arr : List JValue → JValue
  | obj : List (String × JValue) → JValue

/-- Object field lookup: `v[k]` when `v` is an object holding key `k`. -/
def JValue.get? : JValue → String → Option JValue
  | .obj fs, k => fs.lookup k
  | _, _ => Option.none

/-- Array indexing: `v[i]` when `v` is an array of length `> i`. -/
def JValue.at? : JValue → Nat → Option JValue
  | .arr xs, i => xs[i]?
  | _, _ => Option.none

/-- `_generate_adaptive_card` from `src/main.py` (lines 69–248): builds the
Adaptive Card message envelope from a single intervention record.  A pure
total function — every key lookup carries a default. -/
def _generate_adaptive_card (data : InterventionRecord) : JValue :=
  let title := data.state_act_title.getD "N/A"
  let intervention_url := data.intervention_url.getD "#"
  let evaluation := data.gta_evaluation.getD "N/A"
  let affected_list := data.affected_jurisdictions.getD []
  let implementers_list := data.implementing_jurisdictions.getD []
  let intervention_type := data.intervention_type.getD "N/A"
  let mast_chapter := data.mast_chapter.getD "N/A"
  let date_implemented := data.date_implemented.getD "N/A"
  let is_in_force := data.is_in_force.getD (PyPrim.int 0)
  let implementation_level := data.implementation_level.getD "N/A"
  let affected_products := data.affected_products.getD []
  let affected_sectors := data.affected_sectors.getD []
  let implementer_names := implementers_list.map (fun i => i.name.getD "N/A")
  let affected_names := affected_list.map (fun j => j.name.getD "N/A")
  let display_implementer :=
    if implementer_names.length > 5 then
      String.intercalate ", " (implementer_names.take 5) ++
        ", and " ++ toString (implementer_names.length - 5) ++ " more."
    else if implementer_names.isEmpty then "N/A"
    else String.intercalate ", " implementer_names
  let display_affected :=
    if affected_names.length > 5 then
      String.intercalate ", " (affected_names.take 5) ++
        ", and " ++ toString (affected_names.length - 5) ++ " more."
    else if affected_names.isEmpty then "N/A"
    else String.intercalate ", " affected_names
  let status_color :=
    if evaluation = "Red" then "attention"
    else if evaluation = "Amber" then "warning"
    else if evaluation = "Green" then "good"
    else "default"
  let force_status := if is_in_force.truthy then "In Force" else "Not In Force"
  let force_color := if is_in_force.truthy then "good" else "attention"
  let num_products := affected_products.length
  let num_sectors := affected_sectors.length
  let card : JValue := .obj [
    ("type", .str "AdaptiveCard"),
    ("$schema", .str "http://adaptivecards.io/schemas/adaptive-card.json"),
    ("version", .str "1.5"),
    ("body", .arr [
      .obj [
        ("type", .str "TextBlock"),
        ("text", .str title),
        ("weight", .str "bolder"),
        ("size", .str "medium"),
        ("wrap", .bool true),
        ("horizontalAlignment", .str "Center"),
        ("style", .str "heading")],
      .obj [
        ("type", .str "ColumnSet"),
        ("columns", .arr [
          .obj [
            ("type", .str "Column"),
            ("width", .str "stretch"),
            ("items", .arr [
              .obj [
                ("type", .str "TextBlock"),
                ("text", .str ("GTA Evaluation: " ++ evaluation)),
                ("weight", .str "bolder"),
                ("color", .str status_color),
                ("spacing", .str "small")]])],
          .obj [
            ("type", .str "Column"),
            ("width", .str "stretch"),
            ("items", .arr [
              .obj [
                ("type", .str "TextBlock"),
                ("text", .str ("Status: " ++ force_status)),
                ("weight", .str "bolder"),
                ("color", .str force_color),
                ("spacing", .str "small"),
                ("horizontalAlignment", .str "right")]])]])],
      .obj [
        ("type", .str "Container"),
        ("style", .str "emphasis"),
        ("spacing", .str "medium"),
        ("items", .arr [
          .obj [
            ("type", .str "FactSet"),
            ("spacing", .str "medium"),
            ("facts", .arr [
              .obj [("title", .str "Intervention Type"), ("value", .str intervention_type)],
              .obj [("title", .str "MAST Chapter"), ("value", .str mast_chapter)],
              .obj [("title", .str "Implementation Level"), ("value", .str implementation_level)],
              .obj [("title", .str "Date Implemented"), ("value", .str date_implemented)],
              .obj [("title", .str "Affected Products"),
                ("value", .str (toString num_products ++ " product(s)"))],
              .obj [("title", .str "Affected Sectors"),
                ("value", .str (toString num_sectors ++ " sector(s)"))]])]])],
      .obj [
        ("type", .str "Container"),
        ("spacing", .str "medium"),
        ("items", .arr [
          .obj [
            ("type", .str "TextBlock"),
            ("text", .str "**Implementing Jurisdictions:**"),
            ("wrap", .bool true),
            ("weight", .str "bolder"),
            ("spacing", .str "medium")],
          .obj [
            ("type", .str "TextBlock"),
            ("text", .str display_implementer),
            ("wrap", .bool true),
            ("spacing", .str "small")]])],
      .obj [
        ("type", .str "Container"),
        ("spacing", .str "medium"),
        ("items", .arr [
          .obj [
            ("type", .str "TextBlock"),
            ("text", .str "**Affected Jurisdictions:**"),
            ("wrap", .bool true),
            ("weight", .str "bolder"),
            ("spacing", .str "medium")],
          .obj [
            ("type", .str "TextBlock"),
            ("text", .str display_affected),
            ("wrap", .bool true),
            ("spacing", .str "small")]])],
      .obj [
        ("type", .str "Container"),
        ("spacing", .str "medium"),
        ("items", .arr [
          .obj [
            ("type", .str "ActionSet"),
            ("actions", .arr [
              .obj [
                ("type", .str "Action.OpenUrl"),
                ("title", .str "View Full Intervention Details"),
                ("url", .str intervention_url),
                ("style", .str "positive")]])]])]])]
  .obj [
    ("type", .str "message"),
    ("attachments", .arr [
      .obj [
        ("contentType", .str "application/vnd.microsoft.card.adaptive"),
        ("content", card)]])]

/-! ## Navigation into the generated card

Paths into the concrete card document, used to state claims about what the
builder puts where. -/

/-- The inner Adaptive Card of the message envelope
(`payload["attachments"][0]["content"]`). -/
def envelopeContent (v : JValue) : Option JValue :=
  (v.get? "attachments").bind (fun a => (a.at? 0).bind (fun x => x.get? "content"))

/-- Element `i` of the card body (`card["body"][i]`). -/
def cardBodyAt (v : JValue) (i : Nat) : Option JValue :=
  (envelopeContent v).bind (fun c => (c.get? "body").bind (fun b => b.at? i))

/-- The title text: `body[0]["text"]`. -/
def titleTextOf (v : JValue) : Option JValue :=
  (cardBodyAt v 0).bind (fun b => b.get? "text")

/-- The evaluation TextBlock: `body[1]["columns"][0]["items"][0]`. -/
def evalBlockOf (v : JValue) : Option JValue :=
  (cardBodyAt v 1).bind (fun b => (b.get? "columns").bind (fun c =>
    (c.at? 0).bind (fun col => (col.get? "items").bind (fun it => it.at? 0))))

/-- The in-force status TextBlock: `body[1]["columns"][1]["items"][0]`. -/
def forceBlockOf (v : JValue) : Option JValue :=
  (cardBodyAt v 1).bind (fun b => (b.get? "columns").bind (fun c =>
    (c.at? 1).bind (fun col => (col.get? "items").bind (fun it => it.at? 0))))

/-- Value of the `i`-th row of the fact table:
`body[2]["items"][0]["facts"][i]["value"]`. -/
def factValueOf (v : JValue) (i : Nat) : Option JValue :=
  (cardBodyAt v 2).bind (fun b => (b.get? "items").bind (fun it =>
    (it.at? 0).bind (fun fs => (fs.get? "facts").bind (fun f =>
      (f.at? i).bind (fun row => row.get? "value")))))

/-- The implementing-jurisdictions display string: `body[3]["items"][1]["text"]`. -/
def displayImplementerOf (v : JValue) : Option JValue :=
  (cardBodyAt v 3).bind (fun b => (b.get? "items").bind (fun it =>
    (it.at? 1).bind (fun t => t.get? "text")))

/-- The affected-jurisdictions display string: `body[4]["items"][1]["text"]`. -/
def displayAffectedOf (v : JValue) : Option JValue :=
  (cardBodyAt v 4).bind (fun b => (b.get? "items").bind (fun it =>
    (it.at? 1).bind (fun t => t.get? "text")))

/-- The detail URL of the action control: `body[5]["items"][0]["actions"][0]["url"]`. -/
def actionUrlOf (v : JValue) : Option JValue :=
  (cardBodyAt v 5).bind (fun b => (b.get? "items").bind (fun it =>
    (it.at? 0).bind (fun a => (a.get? "actions").bind (fun acts =>
      (acts.at? 0).bind (fun act => act.get? "url")))))

/-! ## The two I/O boundary functions

Each takes the outcome of its single HTTP request as an argument: either a
response (with status code and body) or a raised network-level exception
(`requests.exceptions.RequestException` and its subclasses). -/

/-- Response to the webhook POST, as consumed by `send_teams_message`:
status code and body text. -/
structure TeamsResponse where
  status_code : Nat
  text : String
deriving Repr, DecidableEq

/-- Outcome of the webhook POST performed by `send_teams_message`. -/
inductive SendOutcome where
  | response : TeamsResponse → SendOutcome
  | exception : String → SendOutcome
deriving Repr, DecidableEq

/-- The message of the `requests.exceptions.HTTPError` raised by
`response.raise_for_status()` for a 4xx (client) or 5xx (server) status. -/
def httpErrorMessage (r : TeamsResponse) : String :=
  if r.status_code < 500 then toString r.status_code ++ " Client Error"
  else toString r.status_code ++ " Server Error"

/-- `send_teams_message` from `src/main.py` (lines 18–42), as a function of
the POST outcome.  `response.raise_for_status()` raises `HTTPError` (a
`RequestException`) exactly for status codes in `[400, 600)`; the `except`
clause catches every `RequestException`, logs it and returns `None`.
Result: the returned value (`Some response` or `None`) paired with the log
lines written. -/
def send_teams_message : SendOutcome → Option TeamsResponse × List String
  | .exception msg => (Option.none, ["Error sending message to Teams: " ++ msg])
  | .response r =>
    if 400 ≤ r.status_code ∧ r.status_code < 600 then
      (Option.none, ["Error sending message to Teams: " ++ httpErrorMessage r])
    else (some r, [])

/-- Response to the data-API POST, as consumed by `get_interventions`:
status code, body text, and the parsed JSON body (`response.json()`), which
the source's return annotation assumes is a list of records. -/
structure ApiResponse where
  status_code : Nat
  text : String
  json : List InterventionRecord
deriving Repr

/-- Outcome of the data-API POST performed by `get_interventions`. -/
inductive FetchOutcome where
  | response : ApiResponse → FetchOutcome
  | exception : String → FetchOutcome
deriving Repr

/-- `get_interventions` from `src/main.py` (lines 45–66), as a function of
the POST outcome.  The function has no try/except: a network-level
exception raised by `requests.request` propagates uncaught
(`Except.error`).  A response with status other than 200 is logged and
turned into `[]`; a 200 response yields its parsed JSON body.  Result on
normal return: the record list paired with the log lines written. -/
def get_interventions : FetchOutcome → Except String (List InterventionRecord × List String)
  | .exception msg => .error msg
  | .response r =>
    if r.status_code ≠ 200 then
      .ok ([], ["Error retrieving interventions: " ++ r.text])
    else .ok (r.json, [])

/-! ## The `__main__` block -/

/-- The environment as seen by the entry point: `os.getenv` yields the
variable's string when set (possibly empty) and `None` when absent. -/
structure Env where
  WEBHOOK_URL : Option String
  GTA_API_KEY : Option String
deriving Repr

/-- Python `not` applied to an optional string (`not os.getenv(...)`):
true when the variable is absent or set to the empty string. -/
def pyNot : Option String → Bool
  | Option.none => true
  | some s => s.isEmpty

/-- Observable outcome of a completed run of the `__main__` block. -/
structure RunResult where
  exit_code : Nat
  fetch_called : Bool
  send_called : Bool
  card_built : Bool
  sent_payloads : List JValue
  logs : List String

/-- The `__main__` block of `src/main.py` (lines 251–283), as a function of
the environment and of the outcomes of the two HTTP requests.  A run that
Python would end by an uncaught exception is `Except.error` with the
exception's message; a normal completion is `Except.ok` with the exit code,
which of the builder and the two I/O functions were invoked, every payload
passed to the sender, and the log lines written. -/
def main_run (env : Env) (fetch : FetchOutcome) (send : SendOutcome) :
    Except String RunResult :=
  if pyNot env.WEBHOOK_URL then
    .ok ⟨1, false, false, false, [],
      ["FATAL: The WEBHOOK_URL environment variable is not set.",
       "Set the environment variable in your .env file and try again."]⟩
  else if pyNot env.GTA_API_KEY then
    .ok ⟨1, false, false, false, [],
      ["FATAL: The GTA_API_KEY environment variable is not set.",
       "Set the environment variable in your .env file and try again."]⟩
  else
    match get_interventions fetch with
    | .error msg => .error msg
    | .ok (interventions, flog) =>
      match interventions with
      | [] => .ok ⟨0, true, false, false, [], flog ++ ["No interventions found."]⟩
      | first :: _ =>
        let payload := _generate_adaptive_card first
        let (resp, slog) := send_teams_message send
        match resp with
        | some _ =>
          .ok ⟨0, true, true, true, [payload],
            flog ++ slog ++ ["Message sent successfully!"]⟩
        | Option.none =>
          .ok ⟨0, true, true, true, [payload],
            flog ++ slog ++ ["Failed to send message. Check the logs above for details."]⟩

/-- Mapping a projection over a normally completed run. -/
@[simp]
theorem exceptMap_ok {ε β γ : Type} (f : β → γ) (x : β) :
    Except.map f (Except.ok x : Except ε β) = Except.ok (f x) := rfl

/-! ## Claims about the card builder -/

/-- C1: for every intervention record, the card builder computes the
displayed implementer and affected strings from the record's jurisdiction
lists as follows: extract each entry's name (substituting "N/A" for an
entry missing the name key); with more than 5 names, the display string is
the first 5 joined by ", " followed by ", and (n−5) more." where n is the
total count; with 1 to 5 names it is all of them joined by ", "; with none
it is the literal "N/A". -/
theorem C1_display_jurisdiction_lists (r : InterventionRecord) :
    displayImplementerOf (_generate_adaptive_card r) = some (JValue.str (
      if ((r.implementing_jurisdictions.getD []).map (fun i => i.name.getD "N/A")).length > 5 then
        String.intercalate ", "
            (((r.implementing_jurisdictions.getD []).map (fun i => i.name.getD "N/A")).take 5) ++
          ", and " ++
          toString (((r.implementing_jurisdictions.getD []).map (fun i => i.name.getD "N/A")).length - 5) ++
          " more."
      else if ((r.implementing_jurisdictions.getD []).map (fun i => i.name.getD "N/A")).isEmpty then
        "N/A"
      else
        String.intercalate ", " ((r.implementing_jurisdictions.getD []).map (fun i => i.name.getD "N/A")))) ∧
    displayAffectedOf (_generate_adaptive_card r) = some (JValue.str (
      if ((r.affected_jurisdictions.getD []).map (fun j => j.name.getD "N/A")).length > 5 then
        String.intercalate ", "
            (((r.affected_jurisdictions.getD []).map (fun j => j.name.getD "N/A")).take 5) ++
          ", and " ++
          toString (((r.affected_jurisdictions.getD []).map (fun j => j.name.getD "N/A")).length - 5) ++
          " more."
      else if ((r.affected_jurisdictions.getD []).map (fun j => j.name.getD "N/A")).isEmpty then
        "N/A"
      else
        String.intercalate ", " ((r.affected_jurisdictions.getD []).map (fun j => j.name.getD "N/A")))) :=
  ⟨rfl, rfl⟩

/-- C2: card construction is total (the builder is a plain function, so it
cannot raise) and tolerates any subset of absent fields: for every record
the envelope is fully formed, each absent scalar field renders as the
literal "N/A" ("#" for the detail URL) at its place in the card, and the
empty record yields counts rendered "0 product(s)" and "0 sector(s)". -/
theorem C2_missing_fields_tolerated (r : InterventionRecord) :
    (envelopeContent (_generate_adaptive_card r)).isSome = true ∧
    (r.state_act_title = Option.none →
      titleTextOf (_generate_adaptive_card r) = some (JValue.str "N/A")) ∧
    (r.intervention_url = Option.none →
      actionUrlOf (_generate_adaptive_card r) = some (JValue.str "#")) ∧
    (r.gta_evaluation = Option.none →
      (evalBlockOf (_generate_adaptive_card r)).bind (fun b => b.get? "text") =
        some (JValue.str "GTA Evaluation: N/A")) ∧
    (r.intervention_type = Option.none →
      factValueOf (_generate_adaptive_card r) 0 = some (JValue.str "N/A")) ∧
    (r.mast_chapter = Option.none →
      factValueOf (_generate_adaptive_card r) 1 = some (JValue.str "N/A")) ∧
    (r.implementation_level = Option.none →
      factValueOf (_generate_adaptive_card r) 2 = some (JValue.str "N/A")) ∧
    (r.date_implemented = Option.none →
      factValueOf (_generate_adaptive_card r) 3 = some (JValue.str "N/A")) ∧
    (r.affected_products = Option.none →
      factValueOf (_generate_adaptive_card r) 4 = some (JValue.str "0 product(s)")) ∧
    (r.affected_sectors = Option.none →
      factValueOf (_generate_adaptive_card r) 5 = some (JValue.str "0 sector(s)")) ∧
    factValueOf (_generate_adaptive_card emptyRecord) 4 = some (JValue.str "0 product(s)") ∧
    factValueOf (_generate_adaptive_card emptyRecord) 5 = some (JValue.str "0 sector(s)") := by
  obtain ⟨t, u, e, aj, ij, ity, mc, di, fo, il, ap, asec⟩ := r
  refine ⟨rfl, ?_, ?_, ?_, ?_, ?_, ?_, ?_, ?_, ?_, rfl, rfl⟩ <;>
    (intro h; subst h; with_unfolding_all exact rfl)

/-- C2 witness: the empty record renders the "N/A" title placeholder and
the "#" detail URL. -/
theorem C2_witness :
    titleTextOf (_generate_adaptive_card emptyRecord) = some (JValue.str "N/A") ∧
    actionUrlOf (_generate_adaptive_card emptyRecord) = some (JValue.str "#") :=
  ⟨(C2_missing_fields_tolerated emptyRecord).2.1 rfl,
   (C2_missing_fields_tolerated emptyRecord).2.2.1 rfl⟩

/-- C3: for every record, the color of the evaluation block is "attention"
when the evaluation field equals "Red", "warning" for "Amber", "good" for
"Green", and "default" for any other value or when the field is absent. -/
theorem C3_status_color (r : InterventionRecord) :
    (evalBlockOf (_generate_adaptive_card r)).bind (fun b => b.get? "color") =
      some (JValue.str (
        if r.gta_evaluation = some "Red" then "attention"
        else if r.gta_evaluation = some "Amber" then "warning"
        else if r.gta_evaluation = some "Green" then "good"
        else "default")) := by
  have key : (evalBlockOf (_generate_adaptive_card r)).bind (fun b => b.get? "color") =
      some (JValue.str (
        if r.gta_evaluation.getD "N/A" = "Red" then "attention"
        else if r.gta_evaluation.getD "N/A" = "Amber" then "warning"
        else if r.gta_evaluation.getD "N/A" = "Green" then "good"
        else "default")) := rfl
  rw [key]
  cases hg : r.gta_evaluation with
  | none => rfl
  | some s => simp

/-- C4: for every record, the status text and color of the in-force block
are a pure function of the truthiness of the `is_in_force` field: a truthy
value yields ("In Force", "good"); a falsy value, or absence of the field
(defaulted to 0), yields ("Not In Force", "attention"). -/
theorem C4_force_status (r : InterventionRecord) :
    (forceBlockOf (_generate_adaptive_card r)).bind (fun b => b.get? "text") =
      some (JValue.str ("Status: " ++
        (if (r.is_in_force.getD (PyPrim.int 0)).truthy then "In Force" else "Not In Force"))) ∧
    (forceBlockOf (_generate_adaptive_card r)).bind (fun b => b.get? "color") =
      some (JValue.str
        (if (r.is_in_force.getD (PyPrim.int 0)).truthy then "good" else "attention")) :=
  ⟨rfl, rfl⟩

/-! ## Claims about the I/O boundary functions -/

/-- C5 counterexample: the claim says every non-2xx status yields `None`,
but `raise_for_status` raises only for statuses in `[400, 600)`.  A 301
response has a non-2xx status, yet `send_teams_message` returns the
response object, not `None`. -/
theorem C5_counterexample :
    ¬ (200 ≤ (301 : Nat) ∧ (301 : Nat) < 300) ∧
    (send_teams_message (SendOutcome.response ⟨301, "Moved Permanently"⟩)).1 ≠ Option.none := by
  exact ⟨by decide, by decide⟩

/-- C5 (amended): every webhook call with a 2xx response returns the
response object to the caller with nothing logged; a response with a 4xx
or 5xx status, or any network-level exception, is caught, logged with its
message, and turned into an absent result (`None`) rather than raised; a
response with any other status (1xx/3xx) is also returned, since
`raise_for_status` raises only for statuses in `[400, 600)`. -/
theorem C5_send_result (o : SendOutcome) :
    (∀ r, o = SendOutcome.response r → 200 ≤ r.status_code → r.status_code < 300 →
      send_teams_message o = (some r, [])) ∧
    (∀ r, o = SendOutcome.response r → 400 ≤ r.status_code → r.status_code < 600 →
      send_teams_message o =
        (Option.none, ["Error sending message to Teams: " ++ httpErrorMessage r])) ∧
    (∀ r, o = SendOutcome.response r → ¬ (400 ≤ r.status_code ∧ r.status_code < 600) →
      send_teams_message o = (some r, [])) ∧
    (∀ msg, o = SendOutcome.exception msg →
      send_teams_message o = (Option.none, ["Error sending message to Teams: " ++ msg])) := by
  refine ⟨?_, ?_, ?_, ?_⟩
  · intro r h h1 h2
    subst h
    simp only [send_teams_message]
    rw [if_neg (by omega)]
  · intro r h h1 h2
    subst h
    simp only [send_teams_message]
    rw [if_pos ⟨h1, h2⟩]
  · intro r h hn
    subst h
    simp only [send_teams_message]
    rw [if_neg hn]
  · intro msg h
    subst h
    rfl

/-- C5 witness: a 204 response is returned as-is; a 500 response and a
connection error are logged and converted to `None`. -/
theorem C5_witness :
    send_teams_message (SendOutcome.response ⟨204, "No Content"⟩) =
      (some ⟨204, "No Content"⟩, []) ∧
    send_teams_message (SendOutcome.response ⟨500, "Server Error"⟩) =
      (Option.none, ["Error sending message to Teams: 500 Server Error"]) ∧
    send_teams_message (SendOutcome.exception "Connection refused") =
      (Option.none, ["Error sending message to Teams: Connection refused"]) :=
  ⟨(C5_send_result (SendOutcome.response ⟨204, "No Content"⟩)).1
      ⟨204, "No Content"⟩ rfl (by decide) (by decide),
   (C5_send_result (SendOutcome.response ⟨500, "Server Error"⟩)).2.1
      ⟨500, "Server Error"⟩ rfl (by decide) (by decide),
   (C5_send_result (SendOutcome.exception "Connection refused")).2.2.2
      "Connection refused" rfl⟩

/-- C6: for every fetch whose HTTP response has a status other than 200,
`get_interventions` logs the response body as an error and returns the
empty list (normal return, no exception, no partial result); for a 200
response it returns the parsed JSON body as the record list. -/
theorem C6_fetch_status_handling (r : ApiResponse) :
    (r.status_code ≠ 200 →
      get_interventions (FetchOutcome.response r) =
        .ok ([], ["Error retrieving interventions: " ++ r.text])) ∧
    (r.status_code = 200 →
      get_interventions (FetchOutcome.response r) = .ok (r.json, [])) := by
  constructor
  · intro h
    simp only [get_interventions]
    rw [if_pos h]
  · intro h
    simp only [get_interventions]
    rw [if_neg (by simp [h])]

/-- C6 witness: a 500 response yields the empty list with the error
logged; a 200 response yields its parsed body. -/
theorem C6_witness :
    get_interventions (FetchOutcome.response ⟨500, "oops", []⟩) =
      .ok ([], ["Error retrieving interventions: " ++ "oops"]) ∧
    get_interventions (FetchOutcome.response ⟨200, "", [emptyRecord]⟩) =
      .ok ([emptyRecord], []) :=
  ⟨(C6_fetch_status_handling ⟨500, "oops", []⟩).1 (by decide),
   (C6_fetch_status_handling ⟨200, "", [emptyRecord]⟩).2 rfl⟩

/-! ## Claims about the `__main__` block -/

/-- C7 counterexample: the claim says exit code 1 occurs (only) when a
required environment variable is missing; but `if not WEBHOOK_URL` also
trips when the variable is present with the empty string as value, so a
run with both variables set (one of them empty) still exits 1. -/
theorem C7_counterexample :
    (some "" : Option String) ≠ Option.none ∧
    (some "key" : Option String) ≠ Option.none ∧
    (main_run ⟨some "", some "key"⟩ (FetchOutcome.response ⟨200, "", []⟩)
        (SendOutcome.response ⟨200, ""⟩)).map (fun res => res.exit_code) = .ok 1 := by
  refine ⟨by decide, by decide, rfl⟩

/-- C7 (amended): the process exits 1 when `WEBHOOK_URL` or `GTA_API_KEY`
is missing or set to the empty string (Python falsy), in which case no
network call is made; every other run in which the fetch request does not
raise a network-level exception exits 0, including the run where the fetch
yields no records and the run where the webhook send fails (a fetch
exception instead ends the run by an uncaught exception, per C10). -/
theorem C7_exit_codes (env : Env) (f : FetchOutcome) (s : SendOutcome) :
    (pyNot env.WEBHOOK_URL = true ∨ pyNot env.GTA_API_KEY = true →
      (main_run env f s).map
          (fun res => (res.exit_code, res.fetch_called, res.send_called)) =
        .ok (1, false, false)) ∧
    (pyNot env.WEBHOOK_URL = false → pyNot env.GTA_API_KEY = false →
      (∀ msg, f ≠ FetchOutcome.exception msg) →
      (main_run env f s).map (fun res => res.exit_code) = .ok 0) := by
  constructor
  · intro h
    cases hw : pyNot env.WEBHOOK_URL with
    | true => simp [main_run, hw]
    | false =>
      cases hk : pyNot env.GTA_API_KEY with
      | true => simp [main_run, hw, hk]
      | false => rw [hw, hk] at h; rcases h with h | h <;> exact absurd h (by decide)
  · intro hw hk hf
    cases f with
    | exception m => exact absurd rfl (hf m)
    | response r =>
      obtain ⟨sc, tx, js⟩ := r
      by_cases hs : sc = 200
      · subst hs
        cases js with
        | nil => simp [main_run, hw, hk, get_interventions]
        | cons first rest =>
          rcases h2 : send_teams_message s with ⟨resp, slog⟩
          cases resp <;> simp [main_run, hw, hk, get_interventions, h2]
      · cases js <;> simp [main_run, hw, hk, get_interventions, hs]

/-- C7 witness: a missing `WEBHOOK_URL` exits 1 with no network calls; a
run with both variables set non-empty and an empty fetch result exits 0. -/
theorem C7_witness :
    (main_run ⟨Option.none, some "key"⟩ (FetchOutcome.response ⟨200, "", []⟩)
        (SendOutcome.response ⟨200, ""⟩)).map
        (fun res => (res.exit_code, res.fetch_called, res.send_called)) =
      .ok (1, false, false) ∧
    (main_run ⟨some "hook", some "key"⟩ (FetchOutcome.response ⟨200, "", []⟩)
        (SendOutcome.response ⟨200, ""⟩)).map (fun res => res.exit_code) = .ok 0 :=
  ⟨(C7_exit_codes ⟨Option.none, some "key"⟩ (FetchOutcome.response ⟨200, "", []⟩)
      (SendOutcome.response ⟨200, ""⟩)).1 (Or.inl rfl),
   (C7_exit_codes ⟨some "hook", some "key"⟩ (FetchOutcome.response ⟨200, "", []⟩)
      (SendOutcome.response ⟨200, ""⟩)).2 rfl rfl
      (fun _ h => FetchOutcome.noConfusion h)⟩

/-- C8: in every run where the environment is accepted and the fetch
returns an empty record list, the card builder is never invoked, no
payload is handed to the webhook sender, the run logs
"No interventions found." and exits 0. -/
theorem C8_empty_fetch_short_circuits (env : Env) (f : FetchOutcome) (s : SendOutcome)
    (flog : List String)
    (hw : pyNot env.WEBHOOK_URL = false) (hk : pyNot env.GTA_API_KEY = false)
    (hf : get_interventions f = .ok ([], flog)) :
    (main_run env f s).map
        (fun res => (res.exit_code, res.card_built, res.send_called, res.sent_payloads)) =
      .ok (0, false, false, []) ∧
    (main_run env f s).map (fun res => res.logs) =
      .ok (flog ++ ["No interventions found."]) := by
  constructor <;> simp [main_run, hw, hk, hf]

/-- C8 witness: with both variables set and a 200 response whose body is
the empty list, the run exits 0 without building or sending a card. -/
theorem C8_witness :
    (main_run ⟨some "hook", some "key"⟩ (FetchOutcome.response ⟨200, "[]", []⟩)
        (SendOutcome.response ⟨200, ""⟩)).map
        (fun res => (res.exit_code, res.card_built, res.send_called, res.sent_payloads)) =
      .ok (0, false, false, []) ∧
    (main_run ⟨some "hook", some "key"⟩ (FetchOutcome.response ⟨200, "[]", []⟩)
        (SendOutcome.response ⟨200, ""⟩)).map (fun res => res.logs) =
      .ok ([] ++ ["No interventions found."]) :=
  C8_empty_fetch_short_circuits ⟨some "hook", some "key"⟩
    (FetchOutcome.response ⟨200, "[]", []⟩) (SendOutcome.response ⟨200, ""⟩) []
    rfl rfl rfl

/-- C9: whenever the fetch yields a non-empty record list, the run builds
a card for exactly the first record and passes exactly that one payload to
the webhook sender — one send per run, and later records are never
rendered or sent — and exits 0. -/
theorem C9_only_first_record_sent (env : Env) (f : FetchOutcome) (s : SendOutcome)
    (first : InterventionRecord) (rest : List InterventionRecord) (flog : List String)
    (hw : pyNot env.WEBHOOK_URL = false) (hk : pyNot env.GTA_API_KEY = false)
    (hf : get_interventions f = .ok (first :: rest, flog)) :
    (main_run env f s).map
        (fun res => (res.exit_code, res.card_built, res.send_called, res.sent_payloads)) =
      .ok (0, true, true, [_generate_adaptive_card first]) := by
  rcases h2 : send_teams_message s with ⟨resp, slog⟩
  cases resp <;> simp [main_run, hw, hk, hf, h2]

/-- C9 witness: a fetch body with two records leads to exactly one send,
of the card for the first record. -/
theorem C9_witness :
    (main_run ⟨some "hook", some "key"⟩
        (FetchOutcome.response ⟨200, "", [emptyRecord, emptyRecord]⟩)
        (SendOutcome.response ⟨200, "1"⟩)).map
        (fun res => (res.exit_code, res.card_built, res.send_called, res.sent_payloads)) =
      .ok (0, true, true, [_generate_adaptive_card emptyRecord]) :=
  C9_only_first_record_sent ⟨some "hook", some "key"⟩
    (FetchOutcome.response ⟨200, "", [emptyRecord, emptyRecord]⟩)
    (SendOutcome.response ⟨200, "1"⟩) emptyRecord [emptyRecord] [] rfl rfl rfl

/-- C10: a network-level exception raised during the fetch POST propagates
uncaught out of `get_interventions` (which handles only non-200 responses)
and out of the top level: such a run ends by an uncaught exception instead
of returning an empty list. -/
theorem C10_fetch_exception_propagates (env : Env) (s : SendOutcome) (msg : String)
    (hw : pyNot env.WEBHOOK_URL = false) (hk : pyNot env.GTA_API_KEY = false) :
    get_interventions (FetchOutcome.exception msg) = .error msg ∧
    (∀ out, get_interventions (FetchOutcome.exception msg) ≠ Except.ok out) ∧
    main_run env (FetchOutcome.exception msg) s = .error msg := by
  refine ⟨rfl, fun out h => Except.noConfusion h, ?_⟩
  simp [main_run, hw, hk, get_interventions]

/-- C10 witness: a connection error during the fetch ends the run as an
uncaught exception. -/
theorem C10_witness :
    main_run ⟨some "hook", some "key"⟩ (FetchOutcome.exception "Connection refused")
        (SendOutcome.response ⟨200, ""⟩) = .error "Connection refused" :=
  (C10_fetch_exception_propagates ⟨some "hook", some "key"⟩
    (SendOutcome.response ⟨200, ""⟩) "Connection refused" rfl rfl).2.2

end TeamsPush
